import Mathlib

/-!
Verification of the cap-worker challenge/token store (src/index.ts).

The Durable Object storage is modelled as two association lists, one for the
logical namespace of challenge records and one for the logical namespace of
token records (the source keys them by string concatenation inside a single
map; the two namespaces never collide because of the distinct key formats).

The source wraps the multi-step operations finalizeRedeem and
validateAndConsumeToken in DurableObjectStorage.transaction.  Per the
Cloudflare Workers runtime contract for that API, when the closure throws,
the transaction aborts and every write issued through the transaction handle
is rolled back; when it completes normally, the writes commit atomically.
The model makes this explicit: each operation has a body that threads a
tentative store and may end in a thrown error message, and a transaction
wrapper that commits the tentative store only on normal completion and
restores the caller's store on a throw.

Timestamps (Date.now values) are natural numbers of milliseconds.  The
SHA-256 digest performed by crypto.subtle is an external platform
collaborator; hashToken is parametrised by the digest function (bytes of the
secret segment to digest bytes), while the splitting, validation, hex
encoding and concatenation around it are modelled from the source.
-/

namespace CapWorker

/-- Inner challenge parameters (the c, s, d fields); opaque to the store. -/
structure ChallengeSpec where
  c : Nat
  s : Nat
  d : Nat
deriving DecidableEq, Repr

/-- A stored challenge record (interface Challenge in the source). -/
structure Challenge where
  challenge : ChallengeSpec
  token : String
  expires : Nat
deriving DecidableEq, Repr

/-- A stored token record (interface StoredToken in the source). -/
structure StoredToken where
  expires : Nat
deriving DecidableEq, Repr

/-- The Durable Object storage: the two logical record namespaces. -/
structure Store where
  challenges : List (String × Challenge)
  tokens : List (String × StoredToken)
deriving DecidableEq, Repr

def ERR_NOT_FOUND : String := "NOT_FOUND"

def ERR_EXPIRED : String := "EXPIRED"

def CLEANUP_INTERVAL_MS : Nat := 60 * 1000

/-- Map read: the value stored under key k, if any. -/
def alGet (k : String) : List (String × α) → Option α
  | [] => none
  | (a, b) :: t => if a = k then some b else alGet k t

/-- Map delete: remove every entry stored under key k. -/
def alDelete (k : String) : List (String × α) → List (String × α)
  | [] => []
  | (a, b) :: t => if a = k then alDelete k t else (a, b) :: alDelete k t

/-- Map write: storage.put overwrites the entry under key k. -/
def alPut (k : String) (v : α) (l : List (String × α)) : List (String × α) :=
  (k, v) :: alDelete k l

/-- DurableObjectStorage.transaction: run the body on the current store; on
normal completion commit the body's final store, on a throw (some message)
discard every tentative write and leave the caller's store untouched. -/
def transaction (s : Store) (body : Store → Store × Option String) :
    Store × Option String :=
  match body s with
  | (s1, none) => (s1, none)
  | (_, some e) => (s, some e)

/-- Transaction body of finalizeRedeem: read the challenge record; absent
throws NOT_FOUND; expired issues a delete and then throws EXPIRED; otherwise
delete the challenge and put the token record. -/
def finalizeRedeemBody (now : Nat) (token tokenHash : String)
    (tokenData : StoredToken) (txn : Store) : Store × Option String :=
  match alGet token txn.challenges with
  | none => (txn, some ERR_NOT_FOUND)
  | some existing =>
    if existing.expires < now then
      ({ txn with challenges := alDelete token txn.challenges }, some ERR_EXPIRED)
    else
      ({ challenges := alDelete token txn.challenges,
         tokens := alPut tokenHash tokenData txn.tokens }, none)

/-- finalizeRedeem: the body above run inside a storage transaction. -/
def finalizeRedeem (s : Store) (now : Nat) (token tokenHash : String)
    (tokenData : StoredToken) : Store × Option String :=
  transaction s (finalizeRedeemBody now token tokenHash tokenData)

/-- Transaction body of validateAndConsumeToken: read the token record;
absent throws NOT_FOUND; expired issues a delete and then throws EXPIRED;
otherwise delete it unless keepToken is set. -/
def validateAndConsumeTokenBody (now : Nat) (tokenHash : String)
    (keepToken : Bool) (txn : Store) : Store × Option String :=
  match alGet tokenHash txn.tokens with
  | none => (txn, some ERR_NOT_FOUND)
  | some tokenData =>
    if tokenData.expires < now then
      ({ txn with tokens := alDelete tokenHash txn.tokens }, some ERR_EXPIRED)
    else if !keepToken then
      ({ txn with tokens := alDelete tokenHash txn.tokens }, none)
    else
      (txn, none)

/-- validateAndConsumeToken: the body above run inside a storage transaction. -/
def validateAndConsumeToken (s : Store) (now : Nat) (tokenHash : String)
    (keepToken : Bool) : Store × Option String :=
  transaction s (validateAndConsumeTokenBody now tokenHash keepToken)

/-- One garbage-collection tick (the alarm handler).  It deletes every
challenge and token record whose expires value is strictly below now, and
returns the instant of the next scheduled alarm.  The sweepFails flag marks
the catch branch of the handler: the sweep's work is lost but the alarm is
rescheduled all the same. -/
def alarm (s : Store) (now : Nat) (sweepFails : Bool) : Store × Nat :=
  if sweepFails then
    (s, now + CLEANUP_INTERVAL_MS)
  else
    ({ challenges := s.challenges.filter (fun p => !decide (p.2.expires < now)),
       tokens := s.tokens.filter (fun p => !decide (p.2.expires < now)) },
     now + CLEANUP_INTERVAL_MS)

/-- One lowercase hexadecimal digit (Number.prototype.toString with radix 16
emits lowercase letters). -/
def hexDigit (n : Nat) : Char :=
  if n < 10 then Char.ofNat (48 + n) else Char.ofNat (87 + n)

/-- Hexadecimal digits of n, least significant first. -/
def natToHexRev (n : Nat) : List Char :=
  if h : n < 16 then [hexDigit n]
  else hexDigit (n % 16) :: natToHexRev (n / 16)
decreasing_by
  exact Nat.div_lt_self (by omega) (by omega)

/-- b.toString(16): hexadecimal digits, most significant first. -/
def natToHexChars (n : Nat) : List Char :=
  (natToHexRev n).reverse

/-- padStart(2, c): left-pad to length two. -/
def padStart2 (c : Char) (cs : List Char) : List Char :=
  if cs.length < 2 then List.replicate (2 - cs.length) c ++ cs else cs

/-- One byte of the digest rendered as b.toString(16).padStart(2, zero). -/
def byteToHex (b : Nat) : List Char :=
  padStart2 '0' (natToHexChars b)

/-- The whole digest rendered in hexadecimal and joined. -/
def bytesToHex (bs : List Nat) : List Char :=
  (bs.map byteToHex).flatten

/-- JavaScript String.prototype.split at the colon separator. -/
def splitColon : List Char → List (List Char)
  | [] => [[]]
  | c :: cs =>
    if c = ':' then [] :: splitColon cs
    else
      match splitColon cs with
      | s :: rest => (c :: s) :: rest
      | [] => [[c]]

/-- hashToken: split the presented token at colons, require a non-empty id
segment and a non-empty secret segment (otherwise the source throws Invalid
token format, modelled as none), digest the secret segment and return the id
joined with the lowercase-hex digest.  The digest argument stands for the
platform SHA-256 over the UTF-8 bytes of the segment. -/
def hashToken (digest : List Char → List Nat) (token : List Char) :
    Option (List Char) :=
  match splitColon token with
  | id :: rawToken :: _ =>
    if id = [] ∨ rawToken = [] then none
    else some (id ++ ':' :: bytesToHex (digest rawToken))
  | _ => none

/-- The caller-visible shape of a worker response: HTTP status plus the
success flag and error string of the JSON body. -/
structure HttpResponse where
  status : Nat
  success : Bool
  error : Option String
deriving DecidableEq, Repr

/-- The catch branch of the redeem route around finalizeRedeem: an EXPIRED
message maps to 410 Challenge expired, every other thrown message maps to
409 Challenge already redeemed. -/
def redeemCatchResponse (msg : String) : HttpResponse :=
  if msg = ERR_EXPIRED then ⟨410, false, some "Challenge expired"⟩
  else ⟨409, false, some "Challenge already redeemed"⟩

/-- The finalize step of the redeem route: run finalizeRedeem; on success no
error response is produced (the route falls through to the 200 result), on a
thrown message the catch branch produces the mapped response. -/
def redeemFinalizeStep (s : Store) (now : Nat) (token tokenHash : String)
    (tokenData : StoredToken) : Store × Option HttpResponse :=
  match finalizeRedeem s now token tokenHash tokenData with
  | (s1, none) => (s1, none)
  | (s1, some msg) => (s1, some (redeemCatchResponse msg))

/-- The catch branch of the validate route around validateAndConsumeToken:
NOT_FOUND maps to 404 Token not found, EXPIRED to 410 Token expired, and any
other thrown value to 409 Token already consumed. -/
def validateCatchResponse (msg : String) : HttpResponse :=
  if msg = ERR_NOT_FOUND then ⟨404, false, some "Token not found"⟩
  else if msg = ERR_EXPIRED then ⟨410, false, some "Token expired"⟩
  else ⟨409, false, some "Token already consumed"⟩

/-- Outcome of the validate route: either an HTTP response together with the
store it leaves behind, or an exception escaping the handler uncaught. -/
inductive ValidateOutcome
  | response (r : HttpResponse) (s : Store)
  | uncaught (msg : String)
deriving DecidableEq, Repr

/-- The validate route.  The parsed body is none when request.json() threw
(400 Invalid request body); a missing or empty token field gives 400 Missing
token; then hashToken runs OUTSIDE the try block, so a token it rejects
becomes an uncaught exception; finally validateAndConsumeToken runs inside
try with its catch branch mapping thrown messages to responses. -/
def validateRoute (digest : List Char → List Nat) (s : Store) (now : Nat)
    (body : Option (Option String × Bool)) : ValidateOutcome :=
  match body with
  | none => .response ⟨400, false, some "Invalid request body"⟩ s
  | some (none, _) => .response ⟨400, false, some "Missing token"⟩ s
  | some (some token, keepToken) =>
    if token = "" then .response ⟨400, false, some "Missing token"⟩ s
    else
      match hashToken digest token.data with
      | none => .uncaught "Invalid token format"
      | some tokenHash =>
        match validateAndConsumeToken s now (String.mk tokenHash) keepToken with
        | (s1, none) => .response ⟨200, true, none⟩ s1
        | (s1, some msg) => .response (validateCatchResponse msg) s1

/-- A serialized run of validate-and-consume calls against one token hash,
one call per listed instant, threading the store and collecting each call's
thrown message (none marks success). -/
def runValidates (tokenHash : String) (keepToken : Bool) :
    Store → List Nat → Store × List (Option String)
  | s, [] => (s, [])
  | s, t :: ts =>
    match validateAndConsumeToken s t tokenHash keepToken with
    | (s1, r) =>
      match runValidates tokenHash keepToken s1 ts with
      | (s2, rs) => (s2, r :: rs)

/-- A concrete store used by the closed evaluation theorems: one challenge
under key c expiring at 5, one token under key h expiring at 100. -/
def demoStore : Store :=
  { challenges := [("c", { challenge := ⟨1, 2, 3⟩, token := "c", expires := 5 })],
    tokens := [("h", ⟨100⟩)] }

/-- A concrete stand-in digest for the closed evaluation theorems (the code
points of the segment); the universally quantified theorems hold for the
platform SHA-256 as for any digest function. -/
def demoDigest (cs : List Char) : List Nat :=
  cs.map Char.toNat

/-! Helper lemmas about the association-list maps and the transaction
wrapper. -/

theorem alGet_alDelete_self (k : String) (l : List (String × α)) :
    alGet k (alDelete k l) = none := by
  induction l with
  | nil => rfl
  | cons p t ih =>
    obtain ⟨a, b⟩ := p
    by_cases h : a = k
    · simpa [alDelete, h] using ih
    · simp [alDelete, alGet, h, ih]

theorem alGet_alPut_self (k : String) (v : α) (l : List (String × α)) :
    alGet k (alPut k v l) = some v := by
  simp [alPut, alGet]

theorem transaction_throw (s : Store) (body : Store → Store × Option String)
    (s' : Store) (m : String) (hm : transaction s body = (s', some m)) :
    s' = s := by
  unfold transaction at hm
  rcases hbody : body s with ⟨s1, e⟩
  rw [hbody] at hm
  cases e <;> simp_all

/-- C1: a failing finalizeRedeem or validateAndConsumeToken call (one that
throws NOT_FOUND or EXPIRED out of its storage transaction) leaves the whole
record set, challenges and tokens alike, exactly as it was before the call:
the transaction abort rolls every tentative write back. -/
theorem noPartialState (s : Store) (now : Nat) (t h : String)
    (d : StoredToken) (keep : Bool) :
    (∀ s' m, finalizeRedeem s now t h d = (s', some m) → s' = s) ∧
    (∀ s' m, validateAndConsumeToken s now h keep = (s', some m) → s' = s) :=
  ⟨fun s' m hm => transaction_throw s _ s' m hm,
   fun s' m hm => transaction_throw s _ s' m hm⟩

/-- C1 witness: a concrete EXPIRED failure and a concrete NOT_FOUND failure,
each leaving the store untouched. -/
theorem noPartialState_witness :
    (finalizeRedeem demoStore 10 "c" "h2" ⟨20⟩).1 = demoStore ∧
    (validateAndConsumeToken demoStore 0 "h2" false).1 = demoStore :=
  ⟨(noPartialState demoStore 10 "c" "h2" ⟨20⟩ false).1 _ ERR_EXPIRED (by decide),
   (noPartialState demoStore 10 "c" "h2" ⟨20⟩ false).2 _ ERR_NOT_FOUND (by decide)⟩

/-- C3: finalizeRedeem throws NOT_FOUND when no challenge record exists
under the given id, and when the record exists and is unexpired it commits,
in one transaction, the deletion of the challenge record together with the
insertion of the token record under the given hash with the given expiry. -/
theorem finalizeRedeem_spec (s : Store) (now : Nat) (t h : String)
    (d : StoredToken) :
    (alGet t s.challenges = none →
      finalizeRedeem s now t h d = (s, some ERR_NOT_FOUND)) ∧
    (∀ c, alGet t s.challenges = some c → ¬ c.expires < now →
      finalizeRedeem s now t h d =
        ({ challenges := alDelete t s.challenges,
           tokens := alPut h d s.tokens }, none) ∧
      alGet t (finalizeRedeem s now t h d).1.challenges = none ∧
      alGet h (finalizeRedeem s now t h d).1.tokens = some d) := by
  constructor
  · intro hnone
    simp [finalizeRedeem, transaction, finalizeRedeemBody, hnone]
  · intro c hc hexp
    have heq : finalizeRedeem s now t h d =
        ({ challenges := alDelete t s.challenges,
           tokens := alPut h d s.tokens }, none) := by
      simp [finalizeRedeem, transaction, finalizeRedeemBody, hc, hexp]
    refine ⟨heq, ?_, ?_⟩ <;> rw [heq]
    · exact alGet_alDelete_self t s.challenges
    · exact alGet_alPut_self h d s.tokens

/-- C3 witness: the two branches at concrete inputs - an absent id throws
NOT_FOUND, and a present unexpired challenge is swapped for its token. -/
theorem finalizeRedeem_spec_witness :
    finalizeRedeem demoStore 4 "zz" "h2" ⟨20⟩ = (demoStore, some ERR_NOT_FOUND) ∧
    alGet "c" (finalizeRedeem demoStore 4 "c" "h2" ⟨20⟩).1.challenges = none ∧
    alGet "h2" (finalizeRedeem demoStore 4 "c" "h2" ⟨20⟩).1.tokens = some ⟨20⟩ :=
  ⟨(finalizeRedeem_spec demoStore 4 "zz" "h2" ⟨20⟩).1 (by decide),
   ((finalizeRedeem_spec demoStore 4 "c" "h2" ⟨20⟩).2
      { challenge := ⟨1, 2, 3⟩, token := "c", expires := 5 }
      (by decide) (by decide)).2.1,
   ((finalizeRedeem_spec demoStore 4 "c" "h2" ⟨20⟩).2
      { challenge := ⟨1, 2, 3⟩, token := "c", expires := 5 }
      (by decide) (by decide)).2.2⟩

/-- C4 counterexample: finalizeRedeem on an expired challenge (expires 5,
now 10) throws EXPIRED, yet the record is still present after the call - the
delete issued before the throw is rolled back with the transaction, so the
record is NOT absent after the call returns, contrary to the claim. -/
theorem expiredRecordRemains_counterexample :
    (finalizeRedeem demoStore 10 "c" "h2" ⟨20⟩).2 = some ERR_EXPIRED ∧
    alGet "c" (finalizeRedeem demoStore 10 "c" "h2" ⟨20⟩).1.challenges =
      some { challenge := ⟨1, 2, 3⟩, token := "c", expires := 5 } := by
  decide

/-- C4 amended: when the referenced record exists but its expiry time has
passed, finalizeRedeem and validateAndConsumeToken throw EXPIRED and leave
the store unchanged: the delete issued inside the transaction is undone by
the abort, and the expired record survives until the garbage collector
sweeps it. -/
theorem expiredSignal_amended (s : Store) (now : Nat) (t h : String)
    (d : StoredToken) (keep : Bool) :
    (∀ c, alGet t s.challenges = some c → c.expires < now →
      finalizeRedeem s now t h d = (s, some ERR_EXPIRED)) ∧
    (∀ tok, alGet h s.tokens = some tok → tok.expires < now →
      validateAndConsumeToken s now h keep = (s, some ERR_EXPIRED)) := by
  constructor
  · intro c hc hexp
    simp [finalizeRedeem, transaction, finalizeRedeemBody, hc, hexp]
  · intro tok htok hexp
    simp [validateAndConsumeToken, transaction, validateAndConsumeTokenBody,
          htok, hexp]

/-- C4 amended witness: concrete expired challenge and token, each throwing
EXPIRED with the store intact. -/
theorem expiredSignal_amended_witness :
    finalizeRedeem demoStore 10 "c" "h2" ⟨20⟩ = (demoStore, some ERR_EXPIRED) ∧
    validateAndConsumeToken demoStore 101 "h" false =
      (demoStore, some ERR_EXPIRED) :=
  ⟨(expiredSignal_amended demoStore 10 "c" "h2" ⟨20⟩ false).1
      { challenge := ⟨1, 2, 3⟩, token := "c", expires := 5 } (by decide) (by decide),
   (expiredSignal_amended demoStore 101 "c" "h" ⟨20⟩ false).2
      ⟨100⟩ (by decide) (by decide)⟩

/-- C5 counterexample: at the instant now = expiresAt both operations
SUCCEED (the source tests expires strictly less than now), contrary to the
claim that equality of the current time with expiresAt signals Expired. -/
theorem strictExpiry_counterexample :
    (finalizeRedeem demoStore 5 "c" "h2" ⟨20⟩).2 = none ∧
    (validateAndConsumeToken demoStore 100 "h" false).2 = none := by
  decide

/-- C5 amended: a record found by finalizeRedeem or validateAndConsumeToken
is treated as valid exactly when the current time is at most its expires
value (non-strict): the call succeeds iff now is less than or equal to
expires and throws EXPIRED iff expires is strictly in the past - so a record
whose expiry has strictly passed is never returned as valid by either
operation, whether or not the garbage collector has swept it. -/
theorem expiryBoundary_amended (s : Store) (now : Nat) (t h : String)
    (d : StoredToken) (keep : Bool) :
    (∀ c, alGet t s.challenges = some c →
      (((finalizeRedeem s now t h d).2 = some ERR_EXPIRED) ↔ c.expires < now) ∧
      (((finalizeRedeem s now t h d).2 = none) ↔ now ≤ c.expires)) ∧
    (∀ tok, alGet h s.tokens = some tok →
      (((validateAndConsumeToken s now h keep).2 = some ERR_EXPIRED) ↔
        tok.expires < now) ∧
      (((validateAndConsumeToken s now h keep).2 = none) ↔ now ≤ tok.expires)) := by
  constructor
  · intro c hc
    by_cases hexp : c.expires < now <;>
      constructor <;>
      simp only [finalizeRedeem, transaction, finalizeRedeemBody, hc, hexp,
                 if_true, if_false, reduceIte] <;>
      simp <;> omega
  · intro tok htok
    by_cases hexp : tok.expires < now <;>
      cases keep <;>
      constructor <;>
      simp only [validateAndConsumeToken, transaction, validateAndConsumeTokenBody,
                 htok, hexp, if_true, if_false, reduceIte] <;>
      simp <;> omega

/-- C5 amended witness: the boundary instant at a concrete record - success
at now = expires, EXPIRED one millisecond later. -/
theorem expiryBoundary_amended_witness :
    (((validateAndConsumeToken demoStore 100 "h" false).2 = some ERR_EXPIRED) ↔
      (100 : Nat) < 100) ∧
    (((validateAndConsumeToken demoStore 100 "h" false).2 = none) ↔
      (100 : Nat) ≤ 100) :=
  (expiryBoundary_amended demoStore 100 "c" "h" ⟨0⟩ false).2 ⟨100⟩ (by decide)

/-- Every validate call against a hash that has no token record throws
NOT_FOUND and leaves the store unchanged, for the whole run. -/
theorem runValidates_notFound (h : String) (keep : Bool) (s : Store)
    (ts : List Nat) (hnone : alGet h s.tokens = none) :
    runValidates h keep s ts = (s, ts.map fun _ => some ERR_NOT_FOUND) := by
  induction ts with
  | nil => rfl
  | cons t ts ih =>
    have h1 : validateAndConsumeToken s t h keep = (s, some ERR_NOT_FOUND) := by
      simp [validateAndConsumeToken, transaction, validateAndConsumeTokenBody,
            hnone]
    simp [runValidates, h1, ih]

/-- C2 counterexample: two serialized keep-false validate calls on a live
token - the first succeeds, the second throws NOT_FOUND, and the validate
route maps NOT_FOUND to 404 Token not found, NOT to the 409 Token already
consumed response the claim promises for the losing calls. -/
theorem atMostOnceConsumption_counterexample :
    runValidates "h" false demoStore [0, 0] =
      ({ demoStore with tokens := [] }, [none, some ERR_NOT_FOUND]) ∧
    validateCatchResponse ERR_NOT_FOUND ≠
      ⟨409, false, some "Token already consumed"⟩ := by
  decide

/-- C2 amended: in any serialization of N keep-false validate calls on a
hash whose record exists and is unexpired at the first call, exactly the
first call succeeds; each of the other N-1 calls throws NOT_FOUND, which the
validate route reports as 404 Token not found (the 409 already-consumed
response is reserved for thrown values other than NOT_FOUND and EXPIRED and
is not produced here). -/
theorem atMostOnceConsumption_amended (s : Store) (h : String)
    (d : StoredToken) (t : Nat) (ts : List Nat)
    (hget : alGet h s.tokens = some d) (hunexp : ¬ d.expires < t) :
    runValidates h false s (t :: ts) =
      ({ s with tokens := alDelete h s.tokens },
       none :: ts.map fun _ => some ERR_NOT_FOUND) ∧
    validateCatchResponse ERR_NOT_FOUND = ⟨404, false, some "Token not found"⟩ := by
  refine ⟨?_, rfl⟩
  have h1 : validateAndConsumeToken s t h false =
      ({ s with tokens := alDelete h s.tokens }, none) := by
    simp [validateAndConsumeToken, transaction, validateAndConsumeTokenBody,
          hget, hunexp]
  have h2 := runValidates_notFound h false
    { s with tokens := alDelete h s.tokens } ts (alGet_alDelete_self h s.tokens)
  simp [runValidates, h1, h2]

/-- C2 amended witness: three serialized keep-false calls on the demo token,
one success then two NOT_FOUND throws. -/
theorem atMostOnceConsumption_amended_witness :
    runValidates "h" false demoStore [0, 1, 2] =
      ({ demoStore with tokens := alDelete "h" demoStore.tokens },
       none :: [(1 : Nat), 2].map fun _ => some ERR_NOT_FOUND) ∧
    validateCatchResponse ERR_NOT_FOUND = ⟨404, false, some "Token not found"⟩ :=
  atMostOnceConsumption_amended demoStore "h" ⟨100⟩ 0 [1, 2]
    (by decide) (by decide)

/-- C6: in the redeem route, a finalizeRedeem failure maps to 410 Challenge
expired when the thrown message is EXPIRED, and to 409 Challenge already
redeemed for every other thrown message - in particular the store's
NOT_FOUND signal, which the route reinterprets as a concurrent redemption
because the earlier existence check had already succeeded. -/
theorem redeemErrorMapping (s : Store) (now : Nat) (t h : String)
    (d : StoredToken) (s' : Store) :
    (finalizeRedeem s now t h d = (s', some ERR_EXPIRED) →
      redeemFinalizeStep s now t h d =
        (s', some ⟨410, false, some "Challenge expired"⟩)) ∧
    (∀ msg, msg ≠ ERR_EXPIRED → finalizeRedeem s now t h d = (s', some msg) →
      redeemFinalizeStep s now t h d =
        (s', some ⟨409, false, some "Challenge already redeemed"⟩)) := by
  constructor
  · intro hm
    simp [redeemFinalizeStep, hm, redeemCatchResponse]
  · intro msg hne hm
    simp [redeemFinalizeStep, hm, redeemCatchResponse, hne]

/-- C6 witness: a concrete EXPIRED failure mapped to 410, and a concrete
NOT_FOUND failure (absent id) mapped to 409 Challenge already redeemed. -/
theorem redeemErrorMapping_witness :
    redeemFinalizeStep demoStore 10 "c" "h2" ⟨20⟩ =
      (demoStore, some ⟨410, false, some "Challenge expired"⟩) ∧
    redeemFinalizeStep demoStore 10 "zz" "h2" ⟨20⟩ =
      (demoStore, some ⟨409, false, some "Challenge already redeemed"⟩) :=
  ⟨(redeemErrorMapping demoStore 10 "c" "h2" ⟨20⟩ demoStore).1 (by decide),
   (redeemErrorMapping demoStore 10 "zz" "h2" ⟨20⟩ demoStore).2
     ERR_NOT_FOUND (by decide) (by decide)⟩

/-- C8: keep-true validation is idempotent - with the token record present
and unexpired at every instant of the run, every call in a serialized run of
keep-true validations succeeds and the store is left exactly as it was, so
the token stays valid for subsequent calls until it expires. -/
theorem idempotentRetention (s : Store) (h : String) (d : StoredToken)
    (times : List Nat) (hget : alGet h s.tokens = some d)
    (hunexp : ∀ t ∈ times, ¬ d.expires < t) :
    runValidates h true s times = (s, times.map fun _ => none) := by
  induction times with
  | nil => rfl
  | cons t ts ih =>
    have h1 : validateAndConsumeToken s t h true = (s, none) := by
      simp [validateAndConsumeToken, transaction, validateAndConsumeTokenBody,
            hget, hunexp t (List.mem_cons_self t ts)]
    simp [runValidates, h1,
          ih (fun u hu => hunexp u (List.mem_cons_of_mem t hu))]

/-- C8 witness: three keep-true validations of the demo token at increasing
instants before its expiry, all successful, store unchanged. -/
theorem idempotentRetention_witness :
    runValidates "h" true demoStore [0, 7, 99] =
      (demoStore, [(0 : Nat), 7, 99].map fun _ => none) :=
  idempotentRetention demoStore "h" ⟨100⟩ [0, 7, 99] (by decide) (by decide)

/-- C9: one alarm tick deletes exactly the challenge and token records whose
expires value is strictly below the current time, keeps every other record
untouched, and schedules the next tick at now plus the sweep interval - also
on the catch branch, where the sweep's work is lost but the alarm is
rescheduled all the same. -/
theorem alarm_spec (s : Store) (now : Nat) (sweepFails : Bool) :
    (alarm s now sweepFails).2 = now + CLEANUP_INTERVAL_MS ∧
    (∀ p, p ∈ (alarm s now false).1.challenges ↔
      p ∈ s.challenges ∧ ¬ p.2.expires < now) ∧
    (∀ p, p ∈ (alarm s now false).1.tokens ↔
      p ∈ s.tokens ∧ ¬ p.2.expires < now) := by
  refine ⟨?_, ?_, ?_⟩
  · cases sweepFails <;> rfl
  · intro p
    simp [alarm, List.mem_filter]
  · intro p
    simp [alarm, List.mem_filter]

/-- C9 witness: a concrete tick at instant 50 - the challenge expiring at 5
is swept, the token expiring at 100 survives, and the next tick lands at
50 plus the 60000 millisecond interval, also when the sweep failed. -/
theorem alarm_spec_witness :
    (alarm demoStore 50 true).2 = 50 + CLEANUP_INTERVAL_MS ∧
    (("h", (⟨100⟩ : StoredToken)) ∈ (alarm demoStore 50 false).1.tokens ↔
      ("h", (⟨100⟩ : StoredToken)) ∈ demoStore.tokens ∧ ¬ (100 : Nat) < 50) :=
  ⟨(alarm_spec demoStore 50 true).1,
   (alarm_spec demoStore 50 false).2.2 ("h", ⟨100⟩)⟩

/-- Every response the validate catch branch produces carries success false
and one of the statuses 404, 410, 409. -/
theorem validateCatch_mem (msg : String) :
    (validateCatchResponse msg).success = false ∧
    ((validateCatchResponse msg).status = 400 ∨
     (validateCatchResponse msg).status = 404 ∨
     (validateCatchResponse msg).status = 409 ∨
     (validateCatchResponse msg).status = 410) := by
  unfold validateCatchResponse
  split_ifs <;> simp

/-- C7 counterexample: the token abc has no colon, so hashToken rejects it -
and because hashToken runs outside the try block of the validate route, the
Invalid token format exception escapes the handler uncaught instead of
becoming a success-false JSON response with one of the tabulated statuses. -/
theorem validateUncaught_counterexample :
    validateRoute demoDigest demoStore 0 (some (some "abc", false)) =
      .uncaught "Invalid token format" := by
  decide

/-- C7 amended: for every request whose token field, when present and
non-empty, is accepted by hashToken (non-empty id and secret segments),
every outcome of the validate route is a JSON response that either succeeds
or carries success false and one of the statuses 400, 404, 409, 410; a token
hashToken rejects, however, escapes as an uncaught Invalid token format
exception, since the hashing step runs outside the try block. -/
theorem validatePropagation_amended (digest : List Char → List Nat) (s : Store)
    (now : Nat) (body : Option (Option String × Bool))
    (hwf : ∀ t k, body = some (some t, k) →
      t = "" ∨ (hashToken digest t.data).isSome) :
    ∃ r s', validateRoute digest s now body = .response r s' ∧
      (r.success = true ∨ (r.success = false ∧
        (r.status = 400 ∨ r.status = 404 ∨ r.status = 409 ∨ r.status = 410))) := by
  match body with
  | none =>
    exact ⟨_, _, rfl, Or.inr ⟨rfl, Or.inl rfl⟩⟩
  | some (none, k) =>
    exact ⟨_, _, rfl, Or.inr ⟨rfl, Or.inl rfl⟩⟩
  | some (some t, k) =>
    by_cases ht : t = ""
    · refine ⟨⟨400, false, some "Missing token"⟩, s, ?_, Or.inr ⟨rfl, Or.inl rfl⟩⟩
      simp [validateRoute, ht]
    · rcases hho : hashToken digest t.data with _ | th
      · rcases hwf t k rfl with h1 | h1
        · exact absurd h1 ht
        · rw [hho] at h1
          exact absurd h1 (by simp)
      · rcases hv : validateAndConsumeToken s now (String.mk th) k with ⟨s1, e⟩
        cases e with
        | none =>
          refine ⟨⟨200, true, none⟩, s1, ?_, Or.inl rfl⟩
          simp [validateRoute, ht, hho, hv]
        | some msg =>
          refine ⟨validateCatchResponse msg, s1, ?_,
            Or.inr ⟨(validateCatch_mem msg).1, (validateCatch_mem msg).2⟩⟩
          simp [validateRoute, ht, hho, hv]

/-- C7 amended witness: a well-formed token drives the route to a concrete
response covered by the taxonomy. -/
theorem validatePropagation_amended_witness :
    ∃ r s', validateRoute demoDigest demoStore 0 (some (some "id:s", false)) =
      .response r s' ∧
      (r.success = true ∨ (r.success = false ∧
        (r.status = 400 ∨ r.status = 404 ∨ r.status = 409 ∨ r.status = 410))) :=
  validatePropagation_amended demoDigest demoStore 0 (some (some "id:s", false))
    (by
      intro t k hk
      simp only [Option.some.injEq, Prod.mk.injEq] at hk
      obtain ⟨h1, h2⟩ := hk
      subst h1
      right
      decide)

/-! Lemmas about colon splitting and hexadecimal rendering, feeding the
hashToken theorem. -/

theorem splitColon_no_colon (l : List Char) (h : ':' ∉ l) :
    splitColon l = [l] := by
  induction l with
  | nil => rfl
  | cons c cs ih =>
    have hc : ¬ c = ':' := fun e => h (e ▸ List.mem_cons_self c cs)
    have hcs : ':' ∉ cs := fun m => h (List.mem_cons_of_mem c m)
    simp [splitColon, hc, ih hcs]

theorem splitColon_append (id rest : List Char) (h : ':' ∉ id) :
    splitColon (id ++ ':' :: rest) = id :: splitColon rest := by
  induction id with
  | nil => simp [splitColon]
  | cons c cs ih =>
    have hc : ¬ c = ':' := fun e => h (e ▸ List.mem_cons_self c cs)
    have hcs : ':' ∉ cs := fun m => h (List.mem_cons_of_mem c m)
    simp [splitColon, hc, ih hcs]

theorem hexDigit_mem (n : Nat) (h : n < 16) :
    hexDigit n ∈ ("0123456789abcdef".data) := by
  interval_cases n <;> decide

theorem natToHexRev_mem (n : Nat) :
    ∀ c ∈ natToHexRev n, c ∈ ("0123456789abcdef".data) := by
  induction n using Nat.strong_induction_on with
  | _ n ih =>
    intro c hc
    unfold natToHexRev at hc
    split at hc
    · next h =>
      simp only [List.mem_singleton] at hc
      exact hc ▸ hexDigit_mem n h
    · next h =>
      rcases List.mem_cons.mp hc with h1 | h1
      · exact h1 ▸ hexDigit_mem (n % 16) (Nat.mod_lt n (by omega))
      · exact ih (n / 16) (Nat.div_lt_self (by omega) (by omega)) c h1

theorem byteToHex_mem (b : Nat) :
    ∀ c ∈ byteToHex b, c ∈ ("0123456789abcdef".data) := by
  intro c hc
  have h0 : ('0' : Char) ∈ ("0123456789abcdef".data) := by decide
  unfold byteToHex padStart2 natToHexChars at hc
  by_cases hl : (natToHexRev b).reverse.length < 2
  · rw [if_pos hl] at hc
    rcases List.mem_append.mp hc with h1 | h1
    · exact (List.eq_of_mem_replicate h1) ▸ h0
    · exact natToHexRev_mem b c (List.mem_reverse.mp h1)
  · rw [if_neg hl] at hc
    exact natToHexRev_mem b c (List.mem_reverse.mp hc)

theorem bytesToHex_mem (bs : List Nat) :
    ∀ c ∈ bytesToHex bs, c ∈ ("0123456789abcdef".data) := by
  intro c hc
  unfold bytesToHex at hc
  rcases List.mem_flatten.mp hc with ⟨l, hl, hcl⟩
  rcases List.mem_map.mp hl with ⟨b, hb, rfl⟩
  exact byteToHex_mem b c hcl

/-- C10: hashToken is a function of its input (determinism is immediate);
on a token without a colon it rejects (the source throws Invalid token
format); on id colon s it succeeds exactly when both segments are non-empty
and returns the id joined by a colon with the hex digest of s; any text
after a second colon is ignored, so id colon s colon x produces the very
same stored key; and the rendered digest uses only the sixteen lowercase
hexadecimal characters. -/
theorem hashToken_spec (digest : List Char → List Nat) (id s x : List Char)
    (hid : ':' ∉ id) (hs : ':' ∉ s) :
    hashToken digest id = none ∧
    hashToken digest (id ++ (':' :: s)) =
      (if id = [] ∨ s = [] then none
       else some (id ++ ':' :: bytesToHex (digest s))) ∧
    hashToken digest (id ++ (':' :: (s ++ (':' :: x)))) =
      (if id = [] ∨ s = [] then none
       else some (id ++ ':' :: bytesToHex (digest s))) ∧
    (∀ c ∈ bytesToHex (digest s), c ∈ ("0123456789abcdef".data)) := by
  refine ⟨?_, ?_, ?_, bytesToHex_mem (digest s)⟩
  · unfold hashToken
    rw [splitColon_no_colon id hid]
  · unfold hashToken
    rw [splitColon_append id s hid, splitColon_no_colon s hs]
  · unfold hashToken
    rw [splitColon_append id (s ++ ':' :: x) hid, splitColon_append s x hs]

/-- C10 witness: the segments id and s with trailer x - the token id:s is
accepted, id:s:x collapses to the same stored key, and a bare id without a
colon is rejected. -/
theorem hashToken_spec_witness :
    hashToken demoDigest (['i', 'd'] ++ (':' :: ['s'])) =
      (if (['i', 'd'] : List Char) = [] ∨ (['s'] : List Char) = [] then none
       else some (['i', 'd'] ++ ':' :: bytesToHex (demoDigest ['s']))) ∧
    hashToken demoDigest (['i', 'd'] ++ (':' :: (['s'] ++ (':' :: ['x'])))) =
      (if (['i', 'd'] : List Char) = [] ∨ (['s'] : List Char) = [] then none
       else some (['i', 'd'] ++ ':' :: bytesToHex (demoDigest ['s']))) ∧
    hashToken demoDigest ['i', 'd'] = none :=
  ⟨(hashToken_spec demoDigest ['i', 'd'] ['s'] ['x'] (by decide) (by decide)).2.1,
   (hashToken_spec demoDigest ['i', 'd'] ['s'] ['x'] (by decide) (by decide)).2.2.1,
   (hashToken_spec demoDigest ['i', 'd'] ['s'] ['x'] (by decide) (by decide)).1⟩

end CapWorker
